import Mathlib

/-!
Shallow embedding of `src/bin/cros_au_test_harness.py` (Chromium OS auto-update
test harness).  Pure data is translated directly; the external execution layer
(`RunCommand`, `RunCommandCaptureOutput`) is passed in as an explicit
environment, filesystem state is an explicit record, and Python exceptions are
`Except` values.  Byte chunks travelling through the fault-injection proxy are
`List Nat` (byte lists); only their length and identity are ever inspected by
the harness code.
-/

/-- Decidable equality for `Except` results, so concrete harness outcomes can
be checked by `decide`. -/
def exceptDecEq {ε α : Type} [DecidableEq ε] [DecidableEq α] : DecidableEq (Except ε α) :=
  fun a b =>
  match a, b with
  | Except.ok x, Except.ok y =>
    if h : x = y then Decidable.isTrue (by rw [h]) else Decidable.isFalse (by simp [h])
  | Except.error x, Except.error y =>
    if h : x = y then Decidable.isTrue (by rw [h]) else Decidable.isFalse (by simp [h])
  | Except.ok _, Except.error _ => Decidable.isFalse (by simp)
  | Except.error _, Except.ok _ => Decidable.isFalse (by simp)

instance {ε α : Type} [DecidableEq ε] [DecidableEq α] : DecidableEq (Except ε α) :=
  exceptDecEq

/-! ## Fault filters (`testInterruptedUpdate`, `testDelayedUpdate`) -/

/-- State of `InterruptionFilter` (src/bin/cros_au_test_harness.py:323-350).
`close_count` is set once in `__init__` ("variable shared across all
connections"); `data_size` is (re)set by `setup` at the start of each
connection. -/
structure InterruptionFilter where
  close_count : Nat
  data_size : Nat
deriving DecidableEq

/-- `InterruptionFilter.__init__`: sets the shared counter `close_count := 0`.
`data_size` does not exist yet in Python before the first `setup`; it is given
an inert placeholder value 0 here and is always overwritten by `setup` before
any chunk is processed. -/
def InterruptionFilter.init : InterruptionFilter :=
  { close_count := 0, data_size := 0 }

/-- `InterruptionFilter.setup`: called once at the start of each connection;
resets the per-connection byte counter, leaving `close_count` untouched. -/
def InterruptionFilter.setup (f : InterruptionFilter) : InterruptionFilter :=
  { f with data_size := 0 }

/-- `InterruptionFilter.OutBound(data)`: returns the updated filter state and
`some data` to forward the chunk, or `none` to close the connection. -/
def InterruptionFilter.OutBound (f : InterruptionFilter) (data : List Nat) :
    InterruptionFilter × Option (List Nat) :=
  if f.close_count < 3 then
    if f.data_size > 2 * 1024 * 1024 then
      ({ f with close_count := f.close_count + 1 }, none)
    else
      ({ f with data_size := f.data_size + data.length }, some data)
  else
    ({ f with data_size := f.data_size + data.length }, some data)

/-- Modelled from the spec: the proxy (`cros_test_proxy`, imported by the
harness but not under src/) feeds each outbound chunk of one connection to
`OutBound` in order and closes the connection as soon as the filter returns the
terminate signal (`none`); remaining chunks of that connection are dropped. -/
def InterruptionFilter.runChunks : InterruptionFilter → List (List Nat) → InterruptionFilter
  | f, [] => f
  | f, d :: ds =>
    match f.OutBound d with
    | (f', none) => f'
    | (f', some _) => InterruptionFilter.runChunks f' ds

/-- Modelled from the spec: the proxy calls `setup` once at the start of each
connection, before any chunk of that connection is processed. -/
def InterruptionFilter.runConnection (f : InterruptionFilter) (chunks : List (List Nat)) :
    InterruptionFilter :=
  InterruptionFilter.runChunks f.setup chunks

/-- Modelled from the spec: one filter instance serves every connection of one
relay lifetime, in sequence. -/
def InterruptionFilter.runConnections (f : InterruptionFilter)
    (conns : List (List (List Nat))) : InterruptionFilter :=
  conns.foldl InterruptionFilter.runConnection f

/-- State of `DelayedFilter` (src/bin/cros_au_test_harness.py:357-381).  It has
no `__init__`: BOTH `data_size` and `delay_count` are set by `setup`, i.e. both
are per-connection state. -/
structure DelayedFilter where
  data_size : Nat
  delay_count : Nat
deriving DecidableEq

/-- `DelayedFilter.setup`: called once at the start of each connection; resets
both counters. -/
def DelayedFilter.setup (_f : DelayedFilter) : DelayedFilter :=
  { data_size := 0, delay_count := 0 }

/-- `DelayedFilter.OutBound(data)`: returns the updated filter state, the
number of `time.sleep(20)` calls performed while handling this chunk (0 or 1),
and the forwarded chunk. -/
def DelayedFilter.OutBound (f : DelayedFilter) (data : List Nat) :
    DelayedFilter × Nat × List Nat :=
  if f.delay_count < 3 then
    if f.data_size > 2 * 1024 * 1024 then
      ({ data_size := f.data_size + data.length, delay_count := f.delay_count + 1 }, 1, data)
    else
      ({ data_size := f.data_size + data.length, delay_count := f.delay_count }, 0, data)
  else
    ({ data_size := f.data_size + data.length, delay_count := f.delay_count }, 0, data)

/-- Modelled from the spec: chunks of one connection are fed to `OutBound` in
order; a delay never closes the connection, so every chunk is processed.  The
second component counts the sleeps performed. -/
def DelayedFilter.runChunks : DelayedFilter → List (List Nat) → DelayedFilter × Nat
  | f, [] => (f, 0)
  | f, d :: ds =>
    match f.OutBound d with
    | (f', s, _) =>
      match DelayedFilter.runChunks f' ds with
      | (f'', rest) => (f'', s + rest)

/-- Modelled from the spec: `setup` runs once at the start of each connection,
before any chunk of that connection. -/
def DelayedFilter.runConnection (f : DelayedFilter) (chunks : List (List Nat)) :
    DelayedFilter × Nat :=
  DelayedFilter.runChunks f.setup chunks

/-- Modelled from the spec: one filter instance serves every connection of one
relay lifetime; the second component is the total number of sleeps across all
connections. -/
def DelayedFilter.runConnections : DelayedFilter → List (List (List Nat)) → DelayedFilter × Nat
  | f, [] => (f, 0)
  | f, c :: cs =>
    match DelayedFilter.runConnection f c with
    | (f', s) =>
      match DelayedFilter.runConnections f' cs with
      | (f'', rest) => (f'', s + rest)

/-- A connection whose first chunk pushes the byte counter beyond the 2 MiB
threshold, followed by three further (empty) chunks; each of the later chunks
triggers one delay. -/
def delayHeavyConn : List (List Nat) :=
  [List.replicate (2 * 1024 * 1024 + 1) 0, [], [], []]

/-! ## Python string primitives used by the report parser

These implement, over `List Char`, exactly the Python 2 string operations the
harness uses: `str.split('\n')`, `str.split()` (no argument), `str.strip(set)`,
`str.startswith`, and `int(str)`. -/

/-- Python whitespace characters (`string.whitespace`). -/
def pyWs (c : Char) : Bool :=
  c = ' ' || c = '\t' || c = '\n' || c = '\r' || c = '\x0b' || c = '\x0c'

/-- Split at every character satisfying `p`, keeping empty pieces: the
behaviour of Python `str.split(sep)` for a one-character separator when `p`
matches exactly that separator. -/
def splitOnP (p : Char → Bool) : List Char → List (List Char)
  | [] => [[]]
  | c :: cs =>
    let r := splitOnP p cs
    if p c then [] :: r
    else
      match r with
      | [] => [[c]]
      | h :: t => (c :: h) :: t

/-- Python `output.split('\n')`. -/
def pyLines (cs : List Char) : List (List Char) :=
  splitOnP (fun c => c = '\n') cs

/-- Python `line.split()` with no argument: split on whitespace runs,
discarding empty pieces. -/
def pySplitWs (cs : List Char) : List (List Char) :=
  (splitOnP pyWs cs).filter (fun t => !t.isEmpty)

/-- Python `s.strip(chars)`: drop characters satisfying `p` from both ends. -/
def pyStrip (p : Char → Bool) (cs : List Char) : List Char :=
  ((cs.dropWhile p).reverse.dropWhile p).reverse

/-- The character set of Python `strip('()%')`. -/
def parenPct (c : Char) : Bool :=
  c = '(' || c = ')' || c = '%'

/-- Decimal digit run: `some` of its value when the run is nonempty and all
decimal digits, mirroring the digits part of Python `int(str)`. -/
def decDigitsAux : List Char → Nat → Option Nat
  | [], acc => some acc
  | c :: cs, acc =>
    if c.isDigit then decDigitsAux cs (acc * 10 + (c.toNat - '0'.toNat))
    else none

/-- Value of a nonempty all-digit character run. -/
def decDigits : List Char → Option Nat
  | [] => none
  | cs => decDigitsAux cs 0

/-- Python 2 `int(str)`: optional surrounding whitespace, optional sign, then a
nonempty decimal digit run; `none` models the `ValueError` raised otherwise. -/
def pyInt (cs : List Char) : Option Int :=
  match pyStrip pyWs cs with
  | '-' :: rest => (decDigits rest).map (fun n => -(n : Int))
  | '+' :: rest => (decDigits rest).map (fun n => (n : Int))
  | rest => (decDigits rest).map (fun n => (n : Int))

/-! ## Result aggregator (`AUTest._ParseGenerateTestReportOutput`,
`AUTest.AssertEnoughTestsPassed`) -/

/-- `AUTest._ParseGenerateTestReportOutput(output)`
(src/bin/cros_au_test_harness.py:65-77).  `percent_passed` starts as the int 0;
the first line starting with `"Total PASS:"` replaces it with the
`'()%'`-stripped fourth whitespace token (a string) and breaks; the function
returns `int(percent_passed)`.  The first component collects the `Info` lines
emitted; the second is `none` when the Python code raises (`IndexError` from
`line.split()[3]`, or `ValueError` from `int`). -/
def ParseGenerateTestReportOutput (output : String) : List String × Option Int :=
  match (pyLines output.toList).find? (fun line => "Total PASS:".toList.isPrefixOf line) with
  | none => ([], some 0)
  | some line =>
    match (pySplitWs line).get? 3 with
    | none => ([], none)
    | some tok =>
      let ps := pyStrip parenPct tok
      (["Percent of tests passed " ++ String.mk ps], pyInt ps)

/-- The two ways `AssertEnoughTestsPassed` can raise: an exception escaping the
report parser (`IndexError`/`ValueError`), or the `unittest.assertTrue` failing
(the harness's verification failure). -/
inductive PyFailure
  | parseError
  | assertionFailed
deriving DecidableEq

/-- `AUTest.AssertEnoughTestsPassed(unittest, output, percent_required_to_pass)`
(src/bin/cros_au_test_harness.py:79-97): logs the raw output, parses the pass
percentage, logs `Percent passed: %d vs. Percent required: %d`, asserts
`percent_passed >= percent_required_to_pass`, and returns `percent_passed`.
First component: the diagnostic lines surfaced (via `Info`/stderr); second:
the return value or the exception. -/
def AssertEnoughTestsPassed (output : String) (required : Int) :
    List String × Except PyFailure Int :=
  let pre : List String := ["Output from VerifyImage():", output]
  match ParseGenerateTestReportOutput output with
  | (logs, none) => (pre ++ logs, Except.error PyFailure.parseError)
  | (logs, some p) =>
    let all := pre ++ logs ++
      ["Percent passed: " ++ toString p ++ " vs. Percent required: " ++ toString required]
    if p ≥ required then (all, Except.ok p)
    else (all, Except.error PyFailure.assertionFailed)

/-! ## Backend variants: update steps and their failure semantics -/

/-- `UpdateException(code, stdout)` (src/bin/cros_au_test_harness.py:35-39). -/
structure UpdateException where
  code : Int
  stdout : String
deriving DecidableEq

/-- The external execution layer (`cros_build_lib`, out of scope for the spec):
`RunCommand` either returns or raises a Python exception carrying a message;
`RunCommandCaptureOutput` returns `(returncode, stdout, stderr)`. -/
structure ExecEnv where
  runCommand : List String → Except String Unit
  runCommandCaptureOutput : List String → Int × String × String

/-- `AUTest.GetStatefulChangeFlag` (src/bin/cros_au_test_harness.py:57-63):
the empty flag for a falsy (empty) `stateful_change`, otherwise
`--stateful_update_flag=<stateful_change>`. -/
def GetStatefulChangeFlag (stateful_change : String) : String :=
  if stateful_change ≠ "" then "--stateful_update_flag=" ++ stateful_change
  else ""

/-- Python `if proxy_port: cmd.append('--proxy_port=%s' % proxy_port)`:
`None` and `0` are falsy. -/
def appendProxyPort (cmd : List String) (proxy_port : Option Nat) : List String :=
  match proxy_port with
  | some p => if p ≠ 0 then cmd ++ ["--proxy_port=" ++ toString p] else cmd
  | none => cmd

/-- Configuration of `RealAUTest` relevant to the embedded methods. -/
structure RealAUTestState where
  crosutils : String
  remote : String
  verbose : Bool
  use_delta_updates : Bool
deriving DecidableEq

/-- The `cmd` list built by `RealAUTest._UpdateImage`
(src/bin/cros_au_test_harness.py:414-427). -/
def RealAUTest.updateImageCmd (t : RealAUTestState)
    (image_path src_image_path stateful_change : String) (proxy_port : Option Nat) :
    List String :=
  let stateful_change_flag := GetStatefulChangeFlag stateful_change
  appendProxyPort
    [t.crosutils ++ "/image_to_live.sh",
     "--image=" ++ image_path,
     "--remote=" ++ t.remote,
     stateful_change_flag,
     "--verify",
     "--src_image=" ++ src_image_path]
    proxy_port

/-- `RealAUTest._UpdateImage` (src/bin/cros_au_test_harness.py:414-437):
verbose mode runs the command live and converts any raised exception `e` into
`UpdateException(1, e.message)`; captured mode inspects the exit code and
raises `UpdateException(code, stdout)` when it is non-zero. -/
def RealAUTest.UpdateImage (t : RealAUTestState) (env : ExecEnv)
    (image_path src_image_path stateful_change : String) (proxy_port : Option Nat) :
    Except UpdateException Unit :=
  let cmd := RealAUTest.updateImageCmd t image_path src_image_path stateful_change proxy_port
  if t.verbose then
    match env.runCommand cmd with
    | Except.ok _ => Except.ok ()
    | Except.error e => Except.error { code := 1, stdout := e }
  else
    match env.runCommandCaptureOutput cmd with
    | (code, stdout, _stderr) =>
      if code ≠ 0 then Except.error { code := code, stdout := stdout }
      else Except.ok ()

/-- `VirtualAUTest._KVM_PID_FILE` (src/bin/cros_au_test_harness.py:480). -/
def KVM_PID_FILE : String := "/tmp/harness_pid"

/-- `VirtualAUTest._FULL_VDISK_SIZE` (src/bin/cros_au_test_harness.py:478). -/
def FULL_VDISK_SIZE : Nat := 6072

/-- `VirtualAUTest._FULL_STATEFULFS_SIZE` (src/bin/cros_au_test_harness.py:479). -/
def FULL_STATEFULFS_SIZE : Nat := 3074

/-- Configuration of `VirtualAUTest` relevant to the embedded methods. -/
structure VirtualAUTestState where
  crosutils : String
  crosutilsbin : String
  board : String
  graphics_flag : String
  base_image_path : String
  vm_image_path : String
  verbose : Bool
  use_delta_updates : Bool
deriving DecidableEq

/-- The `cmd` list built by `VirtualAUTest._UpdateImage`
(src/bin/cros_au_test_harness.py:532-551), including its substitution of the
vm image path for a source equal to `base_image_path`. -/
def VirtualAUTest.updateImageCmd (t : VirtualAUTestState)
    (image_path src_image_path stateful_change : String) (proxy_port : Option Nat) :
    List String :=
  let stateful_change_flag := GetStatefulChangeFlag stateful_change
  let src_image_path :=
    if src_image_path = t.base_image_path then t.vm_image_path else src_image_path
  appendProxyPort
    [t.crosutilsbin ++ "/cros_run_vm_update",
     "--update_image_path=" ++ image_path,
     "--vm_image_path=" ++ t.vm_image_path,
     "--snapshot",
     t.graphics_flag,
     "--persist",
     "--kvm_pid=" ++ KVM_PID_FILE,
     stateful_change_flag,
     "--src_image=" ++ src_image_path]
    proxy_port

/-- `VirtualAUTest._UpdateImage` (src/bin/cros_au_test_harness.py:532-561):
identical verbose/captured failure handling to the real variant. -/
def VirtualAUTest.UpdateImage (t : VirtualAUTestState) (env : ExecEnv)
    (image_path src_image_path stateful_change : String) (proxy_port : Option Nat) :
    Except UpdateException Unit :=
  let cmd := VirtualAUTest.updateImageCmd t image_path src_image_path stateful_change proxy_port
  if t.verbose then
    match env.runCommand cmd with
    | Except.ok _ => Except.ok ()
    | Except.error e => Except.error { code := 1, stdout := e }
  else
    match env.runCommandCaptureOutput cmd with
    | (code, stdout, _stderr) =>
      if code ≠ 0 then Except.error { code := code, stdout := stdout }
      else Except.ok ()

/-! ## Expected-failure scenarios (`AttemptUpdateWithPayloadExpectedFailure`) -/

/-- Substring search over character lists: `re.search(re.escape(msg), text)`
escapes the pattern, so it is a plain substring test. -/
def containsSub (needle : List Char) : List Char → Bool
  | [] => needle.isPrefixOf []
  | c :: t => needle.isPrefixOf (c :: t) || containsSub needle t

/-- `re.search(re.escape(expected_msg), stdout, re.MULTILINE)`: with an escaped
(literal) pattern, `re.MULTILINE` is irrelevant and the search is a substring
test. -/
def reSearchEscaped (expected_msg stdout : String) : Bool :=
  containsSub expected_msg.toList stdout.toList

/-- Outcome of one scenario method under `unittest`: the method returns
(test passes), calls `self.fail(msg)` (test fails), or lets an unexpected
exception escape (test errors — also a failed scenario). -/
inductive TestOutcome
  | passed
  | failed (msg : String)
  | errored (exc : String)
deriving DecidableEq

/-- `AUTest.AttemptUpdateWithPayloadExpectedFailure(payload, expected_msg)`
(src/bin/cros_au_test_harness.py:129-140), as a function of the outcome of
`self._UpdateUsingPayload(payload)`.  If the update raises
`UpdateException err` and `expected_msg` occurs in `err.stdout`, the method
returns.  If it raises but the message is missing, the method reaches
`self.fail(...)`.  If the update succeeds, the fall-through code evaluates
`err.stdout` with `err` never bound, so Python raises `NameError` — the test
still does not pass. -/
def AttemptUpdateWithPayloadExpectedFailure
    (updateResult : Except UpdateException Unit) (expected_msg : String) : TestOutcome :=
  match updateResult with
  | Except.error err =>
    if reSearchEscaped expected_msg err.stdout then TestOutcome.passed
    else TestOutcome.failed "We managed to update when failure was expected"
  | Except.ok _ => TestOutcome.errored "NameError"

/-! ## `PerformUpdate` and `PrepareBase` -/

/-- The argument tuple with which `PerformUpdate` invokes `self._UpdateImage`. -/
structure UpdateCall where
  image_path : String
  src_image_path : String
  stateful_change : String
  proxy_port : Option Nat
deriving DecidableEq

/-- `AUTest.PerformUpdate` (src/bin/cros_au_test_harness.py:99-127): blanks
`src_image_path` when delta updates are disabled, then calls `_UpdateImage`;
an `UpdateException` is warned about and re-raised unchanged.  Returns the
`_UpdateImage` invocation made together with its outcome. -/
def AUTest.PerformUpdate (use_delta_updates : Bool)
    (updateImage : String → String → String → Option Nat → Except UpdateException Unit)
    (image_path src_image_path stateful_change : String) (proxy_port : Option Nat) :
    UpdateCall × Except UpdateException Unit :=
  let src := if use_delta_updates = false then "" else src_image_path
  ({ image_path := image_path, src_image_path := src,
     stateful_change := stateful_change, proxy_port := proxy_port },
   updateImage image_path src stateful_change proxy_port)

/-- `RealAUTest.PrepareBase(image_path)` (src/bin/cros_au_test_harness.py:410-412):
`self.PerformUpdate(image_path)` with all defaults (`src_image_path=''`,
`stateful_change='old'`, `proxy_port=None`). -/
def RealAUTest.PrepareBase (t : RealAUTestState) (env : ExecEnv) (image_path : String) :
    UpdateCall × Except UpdateException Unit :=
  AUTest.PerformUpdate t.use_delta_updates
    (fun i s st p => RealAUTest.UpdateImage t env i s st p)
    image_path "" "old" none

/-- `os.path.dirname` (posixpath): everything up to the last `/`, with
trailing slashes stripped unless the head is all slashes. -/
def dirname (p : String) : String :=
  let cs := p.toList
  let head := (cs.reverse.dropWhile (fun c => c ≠ '/')).reverse
  if head.all (fun c => c = '/') then String.mk head
  else String.mk ((head.reverse.dropWhile (fun c => c = '/')).reverse)

/-- The filesystem as the set of existing paths (`os.path.exists`). -/
structure FS where
  files : List String
deriving DecidableEq

/-- `os.path.exists`. -/
def FS.pathExists (fs : FS) (p : String) : Bool :=
  fs.files.contains p

/-- External path helper from `cros_build_lib` (out of scope for the spec),
kept abstract. -/
structure VirtualPrepareEnv where
  reinterpretPathForChroot : String → String

/-- `VirtualAUTest.PrepareBase(image_path)`
(src/bin/cros_au_test_harness.py:509-530): computes
`vm_image_path = '%s/chromiumos_qemu_image.bin' % os.path.dirname(image_path)`
and runs `image_to_vm.sh` only when that artifact does not exist.  Returns the
updated object state and the list of commands executed (empty on the
cache-by-existence path).  The trailing `assertTrue(os.path.exists(...))`
checks the artifact that the external build step materializes. -/
def VirtualAUTest.PrepareBase (t : VirtualAUTestState) (env : VirtualPrepareEnv)
    (fs : FS) (image_path : String) : VirtualAUTestState × List (List String) :=
  let vm_image_path := dirname image_path ++ "/chromiumos_qemu_image.bin"
  let t' := { t with vm_image_path := vm_image_path }
  let cmds :=
    if fs.pathExists vm_image_path = false then
      [[t.crosutils ++ "/image_to_vm.sh",
        "--full",
        "--from=" ++ env.reinterpretPathForChroot (dirname image_path),
        "--vdisk_size=" ++ toString FULL_VDISK_SIZE,
        "--statefulfs_size=" ++ toString FULL_STATEFULFS_SIZE,
        "--board=" ++ t.board,
        "--test_image"]]
    else []
  (t', cmds)

/-! ## Stale emulated-machine cleanup (`_KillExistingVM`, `setUp`) -/

/-- Process-level state of the emulated machine: the content of the PID marker
file (if it exists) and the set of running process ids. -/
structure VMState where
  pidMarker : Option Nat
  running : List Nat
deriving DecidableEq

/-- Modelled from the spec: `cros_stop_vm` (invoked by `_KillExistingVM` but
not under src/) forcibly terminates the process referenced by the kvm pid
marker file and removes the marker. -/
def cros_stop_vm (s : VMState) : VMState :=
  match s.pidMarker with
  | none => s
  | some p => { pidMarker := none, running := s.running.filter (fun q => q ≠ p) }

/-- `VirtualAUTest._KillExistingVM(pid_file)`
(src/bin/cros_au_test_harness.py:482-489): if the marker file exists, run
`cros_stop_vm` on it; then `assert not os.path.exists(pid_file)` (a failing
assert raises `AssertionError`). -/
def KillExistingVM (s : VMState) : Except String VMState :=
  let s' := if s.pidMarker.isSome then cros_stop_vm s else s
  if s'.pidMarker.isSome then Except.error "AssertionError"
  else Except.ok s'

/-- `VirtualAUTest.setUp` (src/bin/cros_au_test_harness.py:491-494): runs
before every test; `AUTest.setUp` only touches the download folder, after
which `_KillExistingVM(self._KVM_PID_FILE)` runs. -/
def VirtualAUTest.setUpVM (s : VMState) : Except String VMState :=
  KillExistingVM s

/-- Modelled from the spec: `unittest` runs `setUp` before each test method,
so every scenario body (the only code that starts new emulated-machine
processes, via `PrepareBase`/update calls) executes against the post-`setUp`
state. -/
def runVMTest (s : VMState) (body : VMState → Except String VMState) :
    Except String VMState :=
  match VirtualAUTest.setUpVM s with
  | Except.ok s' => body s'
  | Except.error e => Except.error e

/-- Whether the fourth whitespace token of a report line, stripped of `'()%'`,
denotes an integer in `[0, 100]` (vacuously true when the token is missing or
non-numeric; in those cases the parser raises instead of returning a value). -/
def tokenPercentOk (line : List Char) : Bool :=
  match (pySplitWs line).get? 3 with
  | none => true
  | some tok =>
    match pyInt (pyStrip parenPct tok) with
    | none => true
    | some m => decide (0 ≤ m) && decide (m ≤ 100)

/-- A concrete execution layer for closed instances: the live (verbose) run
raises an exception with message `boom`; the captured run exits with code 2. -/
def sampleExecEnv : ExecEnv :=
  { runCommand := fun _ => Except.error "boom",
    runCommandCaptureOutput := fun _ => (2, "captured out", "captured err") }

/-- A concrete `RealAUTest` configuration in verbose mode. -/
def sampleRealVerbose : RealAUTestState :=
  { crosutils := "/cu", remote := "10.0.0.1", verbose := true, use_delta_updates := true }

/-- A concrete `RealAUTest` configuration in captured mode. -/
def sampleRealCaptured : RealAUTestState :=
  { crosutils := "/cu", remote := "10.0.0.1", verbose := false, use_delta_updates := true }

/-- A concrete `VirtualAUTest` configuration in verbose mode. -/
def sampleVirtualVerbose : VirtualAUTestState :=
  { crosutils := "/cu", crosutilsbin := "/cu/bin", board := "x86-generic",
    graphics_flag := "", base_image_path := "/img/base.bin",
    vm_image_path := "/img/vm.bin", verbose := true, use_delta_updates := true }

/-- A concrete `VirtualAUTest` configuration in captured mode. -/
def sampleVirtualCaptured : VirtualAUTestState :=
  { crosutils := "/cu", crosutilsbin := "/cu/bin", board := "x86-generic",
    graphics_flag := "", base_image_path := "/img/base.bin",
    vm_image_path := "/img/vm.bin", verbose := false, use_delta_updates := true }

/-! ## Helper lemmas -/

theorem InterruptionFilter.OutBound_close_le (f : InterruptionFilter) (d : List Nat)
    (h : f.close_count ≤ 3) : (f.OutBound d).1.close_count ≤ 3 := by
  simp only [InterruptionFilter.OutBound]
  split_ifs with h1 h2 <;> simp <;> omega

theorem InterruptionFilter.runChunks_close_le (chunks : List (List Nat)) :
    ∀ f : InterruptionFilter, f.close_count ≤ 3 →
      (InterruptionFilter.runChunks f chunks).close_count ≤ 3 := by
  induction chunks with
  | nil => intro f h; simpa [InterruptionFilter.runChunks] using h
  | cons d ds ih =>
    intro f h
    have hstep := InterruptionFilter.OutBound_close_le f d h
    rcases hd : f.OutBound d with ⟨f', r⟩
    rw [hd] at hstep
    cases r with
    | none => simpa [InterruptionFilter.runChunks, hd] using hstep
    | some x =>
      simpa [InterruptionFilter.runChunks, hd] using ih f' hstep

theorem InterruptionFilter.runConnections_close_le (conns : List (List (List Nat))) :
    ∀ f : InterruptionFilter, f.close_count ≤ 3 →
      (InterruptionFilter.runConnections f conns).close_count ≤ 3 := by
  induction conns with
  | nil => intro f h; simpa [InterruptionFilter.runConnections] using h
  | cons c cs ih =>
    intro f h
    have hc : (InterruptionFilter.runConnection f c).close_count ≤ 3 := by
      apply InterruptionFilter.runChunks_close_le
      simpa [InterruptionFilter.setup] using h
    simpa [InterruptionFilter.runConnections, List.foldl_cons] using
      (by simpa [InterruptionFilter.runConnections] using ih _ hc :
        (InterruptionFilter.runConnections (InterruptionFilter.runConnection f c) cs).close_count ≤ 3)

theorem DelayedFilter.OutBound_count (f : DelayedFilter) (d : List Nat) :
    (f.OutBound d).1.delay_count = f.delay_count + (f.OutBound d).2.1 ∧
      (f.OutBound d).2.1 ≤ 1 ∧ ((f.OutBound d).2.1 = 1 → f.delay_count < 3) := by
  simp only [DelayedFilter.OutBound]
  split_ifs with h1 h2 <;> simp [h1]

theorem DelayedFilter.runChunks_cons (f : DelayedFilter) (d : List Nat)
    (ds : List (List Nat)) :
    DelayedFilter.runChunks f (d :: ds) =
      ((DelayedFilter.runChunks (f.OutBound d).1 ds).1,
        (f.OutBound d).2.1 + (DelayedFilter.runChunks (f.OutBound d).1 ds).2) := by
  rcases hd : f.OutBound d with ⟨f', s, x⟩
  rcases hr : DelayedFilter.runChunks f' ds with ⟨f'', rest⟩
  simp [DelayedFilter.runChunks, hd, hr]

theorem DelayedFilter.runChunks_bound (chunks : List (List Nat)) :
    ∀ f : DelayedFilter, f.delay_count ≤ 3 →
      (DelayedFilter.runChunks f chunks).2 + f.delay_count ≤ 3 := by
  induction chunks with
  | nil => intro f h; simpa [DelayedFilter.runChunks] using h
  | cons d ds ih =>
    intro f h
    obtain ⟨hc, hs1, hs3⟩ := DelayedFilter.OutBound_count f d
    rw [DelayedFilter.runChunks_cons]
    have hle : (f.OutBound d).1.delay_count ≤ 3 := by
      rcases Nat.le_one_iff_eq_zero_or_eq_one.mp hs1 with h0 | h1
      · omega
      · have := hs3 h1; omega
    have := ih (f.OutBound d).1 hle
    simp only at this ⊢
    omega

theorem DelayedFilter.runConnection_bound (f : DelayedFilter) (chunks : List (List Nat)) :
    (DelayedFilter.runConnection f chunks).2 ≤ 3 := by
  have := DelayedFilter.runChunks_bound chunks f.setup (by simp [DelayedFilter.setup])
  simpa [DelayedFilter.runConnection, DelayedFilter.setup] using this

theorem DelayedFilter.runConnections_bound (conns : List (List (List Nat))) :
    ∀ f : DelayedFilter, (DelayedFilter.runConnections f conns).2 ≤ 3 * conns.length := by
  induction conns with
  | nil => intro f; simp [DelayedFilter.runConnections]
  | cons c cs ih =>
    intro f
    rcases hc : DelayedFilter.runConnection f c with ⟨f', s⟩
    have hs : s ≤ 3 := by
      have := DelayedFilter.runConnection_bound f c
      rw [hc] at this; exact this
    rcases hr : DelayedFilter.runConnections f' cs with ⟨f'', rest⟩
    have hrest : rest ≤ 3 * cs.length := by
      have := ih f'
      rw [hr] at this; exact this
    simp [DelayedFilter.runConnections, hc, hr, List.length_cons]
    omega

theorem DelayedFilter.OutBound_first_big :
    DelayedFilter.OutBound { data_size := 0, delay_count := 0 }
        (List.replicate (2 * 1024 * 1024 + 1) 0) =
      ({ data_size := 2 * 1024 * 1024 + 1, delay_count := 0 }, 0,
        List.replicate (2 * 1024 * 1024 + 1) 0) := by
  unfold DelayedFilter.OutBound
  rw [List.length_replicate, if_pos (show (0:Nat) < 3 by norm_num),
    if_neg (show ¬ ((0:Nat) > 2 * 1024 * 1024) by norm_num)]

theorem DelayedFilter.runConnection_delayHeavyConn (f : DelayedFilter) :
    DelayedFilter.runConnection f delayHeavyConn =
      ({ data_size := 2 * 1024 * 1024 + 1, delay_count := 3 }, 3) := by
  have hsetup : DelayedFilter.setup f = { data_size := 0, delay_count := 0 } := rfl
  have htail : DelayedFilter.runChunks
      { data_size := 2 * 1024 * 1024 + 1, delay_count := 0 } [[], [], []] =
      ({ data_size := 2 * 1024 * 1024 + 1, delay_count := 3 }, 3) := by decide
  rw [DelayedFilter.runConnection, hsetup, delayHeavyConn,
    DelayedFilter.runChunks_cons, DelayedFilter.OutBound_first_big, htail]
  rfl

theorem DelayedFilter.runConnections_cons (f : DelayedFilter) (c : List (List Nat))
    (cs : List (List (List Nat))) :
    DelayedFilter.runConnections f (c :: cs) =
      ((DelayedFilter.runConnections (f.runConnection c).1 cs).1,
        (f.runConnection c).2 +
          (DelayedFilter.runConnections (f.runConnection c).1 cs).2) := by
  rcases hc : f.runConnection c with ⟨f', s⟩
  rcases hr : DelayedFilter.runConnections f' cs with ⟨f'', rest⟩
  simp [DelayedFilter.runConnections, hc, hr]

/-- Claim C1: the spec states the delays-so-far counter is shared across all
connections of one relay lifetime, so the filter would sleep at most 3 times
in total across every sequence of connections.  On the code this is false:
`DelayedFilter.setup` resets `delay_count` at every connection start, so two
connections that each cross the 2 MiB threshold produce 6 sleeps in total. -/
theorem delayed_filter_shared_counter_counterexample :
    (DelayedFilter.runConnections { data_size := 0, delay_count := 0 }
        [delayHeavyConn, delayHeavyConn]).2 = 6 ∧
    ¬ ((DelayedFilter.runConnections { data_size := 0, delay_count := 0 }
        [delayHeavyConn, delayHeavyConn]).2 ≤ 3) := by
  have h6 : (DelayedFilter.runConnections { data_size := 0, delay_count := 0 }
      [delayHeavyConn, delayHeavyConn]).2 = 6 := by
    rw [DelayedFilter.runConnections_cons, DelayedFilter.runConnection_delayHeavyConn,
      DelayedFilter.runConnections_cons, DelayedFilter.runConnection_delayHeavyConn]
    rfl
  refine ⟨h6, ?_⟩
  rw [h6]
  omega

/-- Claim C1 (amended): the delays-so-far counter is per-connection state,
reset by `setup` at each connection start; across every sequence of
connections handled by one filter instance the filter sleeps at most 3 times
per connection — never unboundedly per connection — and hence at most
3 times the number of connections in total (but not at most 3 in total). -/
theorem delayed_filter_per_connection_bound :
    (∀ (f : DelayedFilter) (chunks : List (List Nat)),
      (DelayedFilter.runConnection f chunks).2 ≤ 3) ∧
    (∀ (f : DelayedFilter) (conns : List (List (List Nat))),
      (DelayedFilter.runConnections f conns).2 ≤ 3 * conns.length) :=
  ⟨fun f chunks => DelayedFilter.runConnection_bound f chunks,
   fun f conns => DelayedFilter.runConnections_bound conns f⟩

/-- Claim C2: for every chunk presented to the interrupt-after-bytes filter
(threshold 2 MiB, maxClosures 3), the filter signals termination (returns
`none`) iff the connection's byte count accumulated before this chunk is
strictly greater than the threshold and the shared closure counter is below 3;
on the terminating branch the closure counter is incremented and the byte
counter is not updated; on every other branch the chunk's length is added to
the byte counter and the chunk is forwarded unchanged; and across any sequence
of connections handled by one filter instance the closure counter never
exceeds 3. -/
theorem interruption_filter_correct (f : InterruptionFilter) (data : List Nat) :
    ((f.OutBound data).2 = none ↔
        f.data_size > 2 * 1024 * 1024 ∧ f.close_count < 3) ∧
    ((f.OutBound data).2 = none →
        (f.OutBound data).1.close_count = f.close_count + 1 ∧
        (f.OutBound data).1.data_size = f.data_size) ∧
    ((f.OutBound data).2 ≠ none →
        (f.OutBound data).2 = some data ∧
        (f.OutBound data).1.data_size = f.data_size + data.length ∧
        (f.OutBound data).1.close_count = f.close_count) ∧
    (∀ conns : List (List (List Nat)),
        (InterruptionFilter.init.runConnections conns).close_count ≤ 3) := by
  refine ⟨?_, ?_, ?_, ?_⟩
  · simp only [InterruptionFilter.OutBound]
    split_ifs with h1 h2 <;> simp_all
  · simp only [InterruptionFilter.OutBound]
    split_ifs with h1 h2 <;> simp_all
  · simp only [InterruptionFilter.OutBound]
    split_ifs with h1 h2 <;> simp_all
  · intro conns
    exact InterruptionFilter.runConnections_close_le conns InterruptionFilter.init
      (by simp [InterruptionFilter.init])

/-- Witness for C2 at a concrete input: with the byte counter past the
threshold and the closure counter still 0, the filter terminates the
connection, increments the closure counter and leaves the byte counter
untouched; and a concrete two-connection run respects the bound. -/
theorem interruption_filter_correct_witness :
    (InterruptionFilter.OutBound { close_count := 0, data_size := 2097153 } [1, 2]).2 = none ∧
    (InterruptionFilter.OutBound { close_count := 0, data_size := 2097153 } [1, 2]).1.close_count = 1 ∧
    (InterruptionFilter.runConnections InterruptionFilter.init
      [[[1, 2]], [[3]]]).close_count ≤ 3 := by
  have h := interruption_filter_correct { close_count := 0, data_size := 2097153 } [1, 2]
  have hnone : (InterruptionFilter.OutBound
      { close_count := 0, data_size := 2097153 } [1, 2]).2 = none :=
    h.1.mpr (by refine ⟨by norm_num, by norm_num⟩)
  exact ⟨hnone, (h.2.1 hnone).1, h.2.2.2 [[[1, 2]], [[3]]]⟩

/-- Claim C3: the spec states the parsed `percent_passed` always lies in
`[0, 100]` (clamped), whatever the content of the `Total PASS:` line.  On the
code this is false: `_ParseGenerateTestReportOutput` performs no clamping, and
the output `Total PASS: 500/50 (1000%)` parses to 1000. -/
theorem parse_report_not_clamped_counterexample :
    (ParseGenerateTestReportOutput "Total PASS: 500/50 (1000%)").2 = some 1000 ∧
    ¬ (∀ n : Int,
        (ParseGenerateTestReportOutput "Total PASS: 500/50 (1000%)").2 = some n →
        0 ≤ n ∧ n ≤ 100) := by
  refine ⟨by decide, fun h => ?_⟩
  have := h 1000 (by decide)
  omega

/-- Claim C3 (amended): the parser does not clamp; the parsed result is 0 when
no `Total PASS:` line is present, and otherwise is exactly the integer denoted
by the stripped fourth token of the first such line, so it lies in `[0, 100]`
whenever that token's value does (as in every well-formed report), but not for
arbitrary line contents. -/
theorem parse_report_in_range_of_wellformed :
    ∀ (output : String) (n : Int),
      (∀ line ∈ pyLines output.toList,
        "Total PASS:".toList.isPrefixOf line = true → tokenPercentOk line = true) →
      (ParseGenerateTestReportOutput output).2 = some n → 0 ≤ n ∧ n ≤ 100 := by
  intro output n hall hres
  unfold ParseGenerateTestReportOutput at hres
  cases hfind : (pyLines output.toList).find?
      (fun line => "Total PASS:".toList.isPrefixOf line) with
  | none =>
    simp only [hfind] at hres
    simp at hres
    omega
  | some line =>
    simp only [hfind] at hres
    have hmem := List.mem_of_find?_eq_some hfind
    have hpred : "Total PASS:".toList.isPrefixOf line = true := List.find?_some hfind
    have htok := hall line hmem hpred
    unfold tokenPercentOk at htok
    cases hget : (pySplitWs line).get? 3 with
    | none => simp only [hget] at hres; simp at hres
    | some tok =>
      simp only [hget] at hres htok
      cases hint : pyInt (pyStrip parenPct tok) with
      | none => simp only [hint] at hres; simp at hres
      | some m =>
        simp only [hint] at hres htok
        simp at hres htok
        omega

/-- Witness for the amended C3: the canonical report parses to 84, which the
theorem places in `[0, 100]`. -/
theorem parse_report_in_range_witness :
    (ParseGenerateTestReportOutput "Total PASS: 42/50 (84%)").2 = some 84 ∧
    0 ≤ (84 : Int) ∧ (84 : Int) ≤ 100 :=
  ⟨by decide,
   parse_report_in_range_of_wellformed "Total PASS: 42/50 (84%)" 84 (by decide) (by decide)⟩

/-- Claim C4: the aggregator parses the pass percentage from the fourth
whitespace-separated token of the first line beginning with `Total PASS:`,
stripping `(`, `)`, `%` and reading the remainder as an integer (that is what
`ParseGenerateTestReportOutput` does, translated line by line from the
source); concretely, `Total PASS: 42/50 (84%)` parses to 84, and any output
containing no line beginning with `Total PASS:` parses to 0. -/
theorem parse_report_examples :
    (ParseGenerateTestReportOutput "Total PASS: 42/50 (84%)").2 = some 84 ∧
    ∀ output : String,
      (∀ line ∈ pyLines output.toList, "Total PASS:".toList.isPrefixOf line = false) →
      (ParseGenerateTestReportOutput output).2 = some 0 := by
  refine ⟨by decide, ?_⟩
  intro output hall
  have hfind : (pyLines output.toList).find?
      (fun line => "Total PASS:".toList.isPrefixOf line) = none := by
    rw [List.find?_eq_none]
    intro x hx hc
    rw [hall x hx] at hc
    exact Bool.false_ne_true hc
  unfold ParseGenerateTestReportOutput
  simp only [hfind]

/-- Witness for C4 at a concrete no-`Total PASS:` output. -/
theorem parse_report_examples_witness :
    (ParseGenerateTestReportOutput "SUMMARY\nTotal FAIL: 1").2 = some 0 :=
  parse_report_examples.2 "SUMMARY\nTotal FAIL: 1" (by decide)

/-- Claim C5: `AssertEnoughTestsPassed` (the gate behind both variants'
`VerifyImage`) returns the parsed percentage and raises nothing when it is at
least the required percentage, and raises the verification failure (the
`unittest` assertion, with the actual percentage surfaced in the emitted
`Percent passed: ...` diagnostic line) when it is below. -/
theorem assert_enough_tests_passed_correct :
    ∀ (output : String) (required p : Int),
      (ParseGenerateTestReportOutput output).2 = some p →
      ((p ≥ required → (AssertEnoughTestsPassed output required).2 = Except.ok p) ∧
       (p < required →
         (AssertEnoughTestsPassed output required).2 =
           Except.error PyFailure.assertionFailed ∧
         ("Percent passed: " ++ toString p ++ " vs. Percent required: " ++ toString required)
           ∈ (AssertEnoughTestsPassed output required).1)) := by
  intro output required p hp
  rcases hparse : ParseGenerateTestReportOutput output with ⟨logs, res⟩
  rw [hparse] at hp
  simp only at hp
  subst hp
  constructor
  · intro hge
    simp [AssertEnoughTestsPassed, hparse, hge]
  · intro hlt
    have hnge : ¬ (p ≥ required) := by omega
    refine ⟨by simp [AssertEnoughTestsPassed, hparse, hnge], ?_⟩
    simp [AssertEnoughTestsPassed, hparse, hnge]

/-- Witness for C5: `VerifyImage(100)`-style gating against outputs reporting
100% and 99%. -/
theorem assert_enough_tests_passed_witness :
    (AssertEnoughTestsPassed "Total PASS: 100/100 (100%)" 100).2 = Except.ok 100 ∧
    (AssertEnoughTestsPassed "Total PASS: 99/100 (99%)" 100).2 =
      Except.error PyFailure.assertionFailed ∧
    ("Percent passed: " ++ toString (99 : Int) ++ " vs. Percent required: " ++
        toString (100 : Int))
      ∈ (AssertEnoughTestsPassed "Total PASS: 99/100 (99%)" 100).1 := by
  have h100 := assert_enough_tests_passed_correct "Total PASS: 100/100 (100%)" 100 100 (by decide)
  have h99 := assert_enough_tests_passed_correct "Total PASS: 99/100 (99%)" 100 99 (by decide)
  exact ⟨h100.1 (by norm_num), (h99.2 (by norm_num)).1, (h99.2 (by norm_num)).2⟩

/-- Claim C6: for both backend variants and both execution modes, an update
step raises `UpdateException` exactly when it does not succeed: in captured
mode it raises `UpdateException(code, stdout)` iff the executed command's exit
code is non-zero, and in verbose mode any exception raised by the execution
layer is converted into `UpdateException(1, message)` rather than
propagating. -/
theorem update_image_failure_semantics :
    ∀ (t : RealAUTestState) (v : VirtualAUTestState) (env : ExecEnv)
      (image src stateful : String) (proxy : Option Nat),
      (t.verbose = true →
        (RealAUTest.UpdateImage t env image src stateful proxy = Except.ok () ↔
          env.runCommand (RealAUTest.updateImageCmd t image src stateful proxy) =
            Except.ok ()) ∧
        (∀ m, env.runCommand (RealAUTest.updateImageCmd t image src stateful proxy) =
            Except.error m →
          RealAUTest.UpdateImage t env image src stateful proxy =
            Except.error { code := 1, stdout := m })) ∧
      (t.verbose = false →
        ∀ code stdout stderr,
          env.runCommandCaptureOutput
              (RealAUTest.updateImageCmd t image src stateful proxy) =
            (code, stdout, stderr) →
          (code ≠ 0 → RealAUTest.UpdateImage t env image src stateful proxy =
            Except.error { code := code, stdout := stdout }) ∧
          (code = 0 → RealAUTest.UpdateImage t env image src stateful proxy =
            Except.ok ())) ∧
      (v.verbose = true →
        (VirtualAUTest.UpdateImage v env image src stateful proxy = Except.ok () ↔
          env.runCommand (VirtualAUTest.updateImageCmd v image src stateful proxy) =
            Except.ok ()) ∧
        (∀ m, env.runCommand (VirtualAUTest.updateImageCmd v image src stateful proxy) =
            Except.error m →
          VirtualAUTest.UpdateImage v env image src stateful proxy =
            Except.error { code := 1, stdout := m })) ∧
      (v.verbose = false →
        ∀ code stdout stderr,
          env.runCommandCaptureOutput
              (VirtualAUTest.updateImageCmd v image src stateful proxy) =
            (code, stdout, stderr) →
          (code ≠ 0 → VirtualAUTest.UpdateImage v env image src stateful proxy =
            Except.error { code := code, stdout := stdout }) ∧
          (code = 0 → VirtualAUTest.UpdateImage v env image src stateful proxy =
            Except.ok ())) := by
  intro t v env image src stateful proxy
  refine ⟨?_, ?_, ?_, ?_⟩
  · intro hv
    unfold RealAUTest.UpdateImage
    rw [hv]
    constructor
    · cases hr : env.runCommand (RealAUTest.updateImageCmd t image src stateful proxy) with
      | ok u => simp [hr]
      | error m => simp [hr]
    · intro m hm
      simp [hm]
  · intro hv code stdout stderr hcap
    unfold RealAUTest.UpdateImage
    rw [hv]
    simp only [Bool.false_eq_true, if_false, hcap]
    constructor
    · intro hne; simp [hne]
    · intro h0; simp [h0]
  · intro hv
    unfold VirtualAUTest.UpdateImage
    rw [hv]
    constructor
    · cases hr : env.runCommand (VirtualAUTest.updateImageCmd v image src stateful proxy) with
      | ok u => simp [hr]
      | error m => simp [hr]
    · intro m hm
      simp [hm]
  · intro hv code stdout stderr hcap
    unfold VirtualAUTest.UpdateImage
    rw [hv]
    simp only [Bool.false_eq_true, if_false, hcap]
    constructor
    · intro hne; simp [hne]
    · intro h0; simp [h0]

/-- Witness for C6: under the sample execution layer the verbose runs convert
the raised exception into `UpdateException(1, "boom")` and the captured runs
raise `UpdateException(2, "captured out")`, for both variants. -/
theorem update_image_failure_semantics_witness :
    RealAUTest.UpdateImage sampleRealVerbose sampleExecEnv "/img/t.bin" "" "old" none =
      Except.error { code := 1, stdout := "boom" } ∧
    RealAUTest.UpdateImage sampleRealCaptured sampleExecEnv "/img/t.bin" "" "old" none =
      Except.error { code := 2, stdout := "captured out" } ∧
    VirtualAUTest.UpdateImage sampleVirtualVerbose sampleExecEnv "/img/t.bin" "" "old" none =
      Except.error { code := 1, stdout := "boom" } ∧
    VirtualAUTest.UpdateImage sampleVirtualCaptured sampleExecEnv "/img/t.bin" "" "old" none =
      Except.error { code := 2, stdout := "captured out" } := by
  have h := update_image_failure_semantics sampleRealVerbose sampleVirtualVerbose
    sampleExecEnv "/img/t.bin" "" "old" none
  have h2 := update_image_failure_semantics sampleRealCaptured sampleVirtualCaptured
    sampleExecEnv "/img/t.bin" "" "old" none
  refine ⟨(h.1 rfl).2 "boom" rfl, ?_, (h.2.2.1 rfl).2 "boom" rfl, ?_⟩
  · exact ((h2.2.1 rfl) 2 "captured out" "captured err" rfl).1 (by norm_num)
  · exact ((h2.2.2.2 rfl) 2 "captured out" "captured err" rfl).1 (by norm_num)

/-- Claim C7: an expected-failure scenario passes iff the update raises
`UpdateException` and the failure's captured output contains the expected
substring; every other outcome (the update succeeding — which in the source
additionally trips a `NameError` on the unbound `err` — or an exception whose
output lacks the substring) makes the scenario fail. -/
theorem attempt_update_expected_failure_iff :
    ∀ (res : Except UpdateException Unit) (msg : String),
      AttemptUpdateWithPayloadExpectedFailure res msg = TestOutcome.passed ↔
        ∃ err, res = Except.error err ∧ reSearchEscaped msg err.stdout = true := by
  intro res msg
  cases res with
  | ok u =>
    simp [AttemptUpdateWithPayloadExpectedFailure]
  | error err =>
    by_cases hs : reSearchEscaped msg err.stdout = true
    · simp [AttemptUpdateWithPayloadExpectedFailure, hs]
    · simp only [AttemptUpdateWithPayloadExpectedFailure]
      rw [if_neg (by simpa using hs)]
      constructor
      · intro hc; cases hc
      · rintro ⟨e, he, hse⟩
        cases he
        exact absurd hse hs

/-- Witness for C7: a failure whose output contains the expected message
passes; one whose output lacks it does not. -/
theorem attempt_update_expected_failure_witness :
    AttemptUpdateWithPayloadExpectedFailure
      (Except.error { code := 1, stdout := "pre zlib inflate error post" })
      "zlib inflate error" = TestOutcome.passed ∧
    ¬ (AttemptUpdateWithPayloadExpectedFailure
      (Except.error { code := 1, stdout := "all fine" })
      "zlib inflate error" = TestOutcome.passed) := by
  constructor
  · exact (attempt_update_expected_failure_iff
      (Except.error { code := 1, stdout := "pre zlib inflate error post" })
      "zlib inflate error").mpr
      ⟨{ code := 1, stdout := "pre zlib inflate error post" }, rfl, by decide⟩
  · intro hc
    obtain ⟨e, he, hse⟩ := (attempt_update_expected_failure_iff
      (Except.error { code := 1, stdout := "all fine" }) "zlib inflate error").mp hc
    cases he
    exact absurd hse (by decide)

/-- Claim C8: for the virtual-machine backend, whenever the PID marker exists
when `setUp` runs (and hence before `PrepareBase`, since `unittest` runs
`setUp` ahead of every test body), the referenced process is forcibly
terminated and the marker no longer exists before the body — the only place
new emulated-machine processes are started — executes. -/
theorem stale_vm_killed_before_new_process :
    ∀ (s : VMState) (p : Nat), s.pidMarker = some p →
      VirtualAUTest.setUpVM s = Except.ok (cros_stop_vm s) ∧
      (cros_stop_vm s).pidMarker = none ∧
      p ∉ (cros_stop_vm s).running ∧
      ∀ body, runVMTest s body = body (cros_stop_vm s) := by
  intro s p hp
  have hstop : cros_stop_vm s =
      { pidMarker := none, running := s.running.filter (fun q => q ≠ p) } := by
    unfold cros_stop_vm
    rw [hp]
  have hok : VirtualAUTest.setUpVM s = Except.ok (cros_stop_vm s) := by
    unfold VirtualAUTest.setUpVM KillExistingVM
    simp [hp, hstop]
  refine ⟨hok, ?_, ?_, ?_⟩
  · rw [hstop]
  · rw [hstop]
    intro hmem
    simp [List.mem_filter] at hmem
  · intro body
    unfold runVMTest
    rw [hok]

/-- Witness for C8: with a stale marker referencing process 5 among running
processes 5 and 7, `setUp` kills 5, clears the marker, and the test body runs
against the cleaned state. -/
theorem stale_vm_killed_witness :
    VirtualAUTest.setUpVM { pidMarker := some 5, running := [5, 7] } =
      Except.ok (cros_stop_vm { pidMarker := some 5, running := [5, 7] }) ∧
    (cros_stop_vm { pidMarker := some 5, running := [5, 7] }).pidMarker = none ∧
    5 ∉ (cros_stop_vm { pidMarker := some 5, running := [5, 7] }).running ∧
    runVMTest { pidMarker := some 5, running := [5, 7] } Except.ok =
      Except.ok (cros_stop_vm { pidMarker := some 5, running := [5, 7] }) := by
  have h := stale_vm_killed_before_new_process
    { pidMarker := some 5, running := [5, 7] } 5 rfl
  exact ⟨h.1, h.2.1, h.2.2.1, h.2.2.2 Except.ok⟩

/-- Claim C9: `PrepareBase` differs per variant exactly as specified — the
virtual-machine variant runs the `image_to_vm.sh` build step only when the
qemu disk-image artifact does not already exist and runs no command at all
when it does; the remote-device variant unconditionally performs a full
update (`src_image_path = ''`) to the given image on every call. -/
theorem prepare_base_variants :
    (∀ (t : VirtualAUTestState) (env : VirtualPrepareEnv) (fs : FS) (image : String),
      (fs.pathExists (dirname image ++ "/chromiumos_qemu_image.bin") = true →
        (VirtualAUTest.PrepareBase t env fs image).2 = []) ∧
      (fs.pathExists (dirname image ++ "/chromiumos_qemu_image.bin") = false →
        (VirtualAUTest.PrepareBase t env fs image).2 =
          [[t.crosutils ++ "/image_to_vm.sh", "--full",
            "--from=" ++ env.reinterpretPathForChroot (dirname image),
            "--vdisk_size=6072", "--statefulfs_size=3074",
            "--board=" ++ t.board, "--test_image"]])) ∧
    (∀ (t : RealAUTestState) (env : ExecEnv) (image : String),
      (RealAUTest.PrepareBase t env image).1 =
        { image_path := image, src_image_path := "", stateful_change := "old",
          proxy_port := none } ∧
      (RealAUTest.PrepareBase t env image).2 =
        RealAUTest.UpdateImage t env image "" "old" none) := by
  constructor
  · intro t env fs image
    constructor
    · intro hex
      unfold VirtualAUTest.PrepareBase
      simp [hex]
    · intro hnex
      unfold VirtualAUTest.PrepareBase
      simp only [hnex]
      rfl
  · intro t env image
    unfold RealAUTest.PrepareBase AUTest.PerformUpdate
    constructor
    · cases hd : t.use_delta_updates <;> simp [hd]
    · cases hd : t.use_delta_updates <;> simp [hd]

/-- Witness for C9: with the artifact present the virtual variant runs no
command; with it absent it runs the build step; the real variant's update
call is the unconditional full update. -/
theorem prepare_base_variants_witness :
    (VirtualAUTest.PrepareBase sampleVirtualVerbose
        { reinterpretPathForChroot := fun p => p }
        { files := ["/img/chromiumos_qemu_image.bin"] } "/img/base.bin").2 = [] ∧
    (VirtualAUTest.PrepareBase sampleVirtualVerbose
        { reinterpretPathForChroot := fun p => p }
        { files := [] } "/img/base.bin").2 =
      [["/cu/image_to_vm.sh", "--full", "--from=/img",
        "--vdisk_size=6072", "--statefulfs_size=3074",
        "--board=x86-generic", "--test_image"]] ∧
    (RealAUTest.PrepareBase sampleRealVerbose sampleExecEnv "/img/base.bin").1 =
      { image_path := "/img/base.bin", src_image_path := "",
        stateful_change := "old", proxy_port := none } := by
  have h1 := (prepare_base_variants.1 sampleVirtualVerbose
    { reinterpretPathForChroot := fun p => p }
    { files := ["/img/chromiumos_qemu_image.bin"] } "/img/base.bin").1 (by decide)
  have h2 := (prepare_base_variants.1 sampleVirtualVerbose
    { reinterpretPathForChroot := fun p => p }
    { files := [] } "/img/base.bin").2 (by decide)
  have h3 := (prepare_base_variants.2 sampleRealVerbose sampleExecEnv "/img/base.bin").1
  refine ⟨h1, ?_, h3⟩
  rw [h2]
  rfl

/-- Claim C10: when delta updates are disabled, `PerformUpdate` invokes the
underlying `_UpdateImage` with an empty source image path (a full update)
regardless of the caller-supplied source path, which therefore has no effect
on the update in that configuration. -/
theorem perform_update_full_when_delta_disabled :
    ∀ (updateImage : String → String → String → Option Nat → Except UpdateException Unit)
      (image src src2 stateful : String) (proxy : Option Nat),
      (AUTest.PerformUpdate false updateImage image src stateful proxy).1.src_image_path
        = "" ∧
      (AUTest.PerformUpdate false updateImage image src stateful proxy).2 =
        updateImage image "" stateful proxy ∧
      AUTest.PerformUpdate false updateImage image src stateful proxy =
        AUTest.PerformUpdate false updateImage image src2 stateful proxy := by
  intro updateImage image src src2 stateful proxy
  exact ⟨rfl, rfl, rfl⟩
